import Mathlib

/-!
Verification development for the CloudBot weather plugin
(`plugins/weather.py`).

The plugin keeps a per-user last-location cache (`location_cache`, a
process-wide dict) backed by a durable table with columns `(nick, loc)`
and primary key `nick`.  The pipeline `get_weather_data` geocodes a
location string, fetches weather data, normalizes it into a flat record
and persists the location.  Two commands (`weather`, `meteo`) render
results and errors in English resp. French.

Modelling conventions:
* the durable table is a list of `(nick, loc)` rows (select order);
* the in-memory dict `location_cache` is a function `String → Option String`;
* Python `str.lower` is `pyLower` (character-wise lowering);
* Python truthiness of an optional string (`if not key:`) is `pyFalsy`;
* JSON scalar payload values (temperatures, urls, …) are carried as the
  strings they are substituted into the output as; the code only ever
  formats them into strings;
* HTTP transport and the two providers are an explicit environment of
  responses; exceptions are an `Except` error channel (`PyErr`);
* observable calls (cache lookup, geocode request, weather request,
  notice, cache write) are recorded in an event trace.
-/

/-- Python `str.lower()` (character-wise). -/
def pyLower (s : String) : String := ⟨s.data.map Char.toLower⟩

/-- Python truthiness test `not x` for an optional string:
`None` and the empty string are falsy. -/
def pyFalsy : Option String → Bool
  | none => true
  | some s => s.isEmpty

/-- Process state: the durable `weather` table (rows `(nick, loc)`,
primary key `nick`) together with the in-memory dict `location_cache`. -/
structure St where
  table : List (String × String)
  location_cache : String → Option String

/-- `load_cache(db)`: iterates every row of the table and assigns
`location_cache[nick] = location`.  Note that the dict is NOT cleared
first: rows are merged into whatever was there. -/
def load_cache (rows : List (String × String)) (cache : String → Option String) :
    String → Option String :=
  rows.foldl (fun c r => fun k => if k = r.1 then some r.2 else c k) cache

/-- `db.execute(table.update().values(loc=location).where(table.c.nick == nick))`:
sets the `loc` column of every row whose key matches. -/
def dbUpdate (rows : List (String × String)) (nick loc : String) :
    List (String × String) :=
  rows.map (fun r => if r.1 = nick then (r.1, loc) else r)

/-- `db.execute(table.insert().values(nick=nick, loc=location))`: appends a
row; the primary-key constraint on `nick` makes the insert fail (`none`)
when a row with that key already exists. -/
def dbInsert (rows : List (String × String)) (nick loc : String) :
    Option (List (String × String)) :=
  if rows.any (fun r => decide (r.1 = nick)) then none
  else some (rows ++ [(nick, loc)])

/-- `set_location(nick, location, db)`: lower-cases both strings, issues an
update when the nick is in the dict and an insert otherwise, commits, and
then reloads the cache from the table.  `none` models the database raising
on a primary-key violation. -/
def set_location (nick location : String) (s : St) : Option St :=
  let n := pyLower nick
  let l := pyLower location
  if (s.location_cache n).isSome then
    let rows := dbUpdate s.table n l
    some ⟨rows, load_cache rows s.location_cache⟩
  else
    match dbInsert s.table n l with
    | none => none
    | some rows => some ⟨rows, load_cache rows s.location_cache⟩

/-- `get_location(nick)`: `location_cache.get(nick.lower(), None)`. -/
def get_location (s : St) (nick : String) : Option String :=
  s.location_cache (pyLower nick)

/-- Value of the last row of `rows` whose key is `k` (later rows win, as in
the dict-assignment loop of `load_cache`). -/
def lastVal : List (String × String) → String → Option String
  | [], _ => none
  | r :: rs, k => (lastVal rs k).or (if k = r.1 then some r.2 else none)

/-- Well-formedness of a process state: table keys are unique (primary
key), every table row is in the dict, and every dict entry has a table
row with its key. -/
def CacheInv (s : St) : Prop :=
  (s.table.map Prod.fst).Nodup ∧
  (∀ r ∈ s.table, s.location_cache r.1 = some r.2) ∧
  (∀ k, (s.location_cache k).isSome = true → ∃ r ∈ s.table, r.1 = k)

/-- States reachable by the plugin's cache operations, starting from the
`on_start` load of the table into the initially empty dict. -/
inductive Reach : St → Prop
  | init (rows : List (String × String)) (h : (rows.map Prod.fst).Nodup) :
      Reach ⟨rows, load_cache rows (fun _ => none)⟩
  | load (s : St) (h : Reach s) : Reach ⟨s.table, load_cache s.table s.location_cache⟩
  | set (s : St) (nick loc : String) (s' : St) (h : Reach s)
      (hs : set_location nick loc s = some s') : Reach s'

theorem load_cache_apply (rows : List (String × String))
    (c : String → Option String) (k : String) :
    load_cache rows c k = (lastVal rows k).or (c k) := by
  induction rows generalizing c with
  | nil => simp [load_cache, lastVal]
  | cons r rs ih =>
    show load_cache rs (fun k => if k = r.1 then some r.2 else c k) k = _
    rw [ih]
    by_cases hk : k = r.1
    · subst hk
      simp only [lastVal, if_pos rfl]
      cases hl : lastVal rs r.1 <;> simp [hl, Option.or_none]
    · simp only [lastVal, if_neg hk]
      cases hl : lastVal rs k <;> simp [hl, Option.or_none, hk]

theorem lastVal_eq_none (rows : List (String × String)) (k : String)
    (h : ∀ r ∈ rows, r.1 ≠ k) : lastVal rows k = none := by
  induction rows with
  | nil => rfl
  | cons r rs ih =>
    have hr : r.1 ≠ k := h r (by simp)
    have hk : k ≠ r.1 := fun hk => hr hk.symm
    simp only [lastVal, if_neg hk]
    rw [ih (fun x hx => h x (by simp [hx]))]
    rfl

theorem lastVal_append (xs ys : List (String × String)) (k : String) :
    lastVal (xs ++ ys) k = (lastVal ys k).or (lastVal xs k) := by
  induction xs with
  | nil => simp [lastVal, Option.or_none]
  | cons x xs ih =>
    simp only [List.cons_append, lastVal, List.append_eq, ih]
    exact Option.or_assoc

theorem lastVal_singleton (k v : String) : lastVal [(k, v)] k = some v := by
  simp [lastVal]

theorem lastVal_dbUpdate (rows : List (String × String)) (n l : String) :
    lastVal (dbUpdate rows n l) n = (lastVal rows n).map (fun _ => l) := by
  induction rows with
  | nil => rfl
  | cons r rs ih =>
    simp only [dbUpdate, List.map_cons, lastVal] at *
    rw [ih]
    by_cases hr : r.1 = n
    · have hn : n = r.1 := hr.symm
      simp only [if_pos hr, if_pos hn]
      cases hl : lastVal rs n <;> simp [hl, Option.or_none]
    · have hn : ¬ n = r.1 := fun hn => hr hn.symm
      simp only [if_neg hr, if_neg hn]
      cases hl : lastVal rs n <;> simp [hl, Option.or_none]

theorem lastVal_isSome_of_mem (rows : List (String × String)) (r : String × String)
    (hm : r ∈ rows) : (lastVal rows r.1).isSome = true := by
  induction rows with
  | nil => cases hm
  | cons x xs ih =>
    rcases List.mem_cons.mp hm with h | h
    · subst h
      simp only [lastVal, if_pos rfl]
      cases hl : lastVal xs r.1 <;> simp [hl]
    · simp only [lastVal, Option.isSome_or, ih h, Bool.true_or]

theorem lastVal_mem (rows : List (String × String)) (k v : String)
    (h : lastVal rows k = some v) : (k, v) ∈ rows := by
  induction rows with
  | nil => simp [lastVal] at h
  | cons r rs ih =>
    simp only [lastVal] at h
    cases hl : lastVal rs k with
    | some w =>
      rw [hl, Option.or_some] at h
      cases h
      exact List.mem_cons_of_mem _ (ih hl)
    | none =>
      rw [hl, Option.none_or] at h
      by_cases hk : k = r.1
      · rw [if_pos hk] at h
        cases h
        cases r with
        | mk a b =>
          simp only at hk
          subst hk
          exact List.mem_cons_self _ _
      · rw [if_neg hk] at h
        cases h

theorem lastVal_nodup_mem (rows : List (String × String)) (k v : String)
    (hnd : (rows.map Prod.fst).Nodup) (hm : (k, v) ∈ rows) :
    lastVal rows k = some v := by
  induction rows with
  | nil => cases hm
  | cons r rs ih =>
    rw [List.map_cons, List.nodup_cons] at hnd
    rcases List.mem_cons.mp hm with h | h
    · have hk : k = r.1 := by rw [← h]
      have hnone : lastVal rs k = none := by
        apply lastVal_eq_none
        intro x hx hxk
        exact hnd.1 (hk ▸ hxk ▸ List.mem_map_of_mem Prod.fst hx)
      have hv : r.2 = v := by rw [← h]
      simp only [lastVal, hnone, Option.none_or, if_pos hk, hv]
    · rw [lastVal, ih hnd.2 h, Option.or_some]

theorem dbUpdate_keys (rows : List (String × String)) (n l : String) :
    (dbUpdate rows n l).map Prod.fst = rows.map Prod.fst := by
  induction rows with
  | nil => rfl
  | cons r rs ih =>
    simp only [dbUpdate] at *
    rw [List.map_cons, List.map_cons, ih]
    congr 1
    by_cases hr : r.1 = n
    · rw [if_pos hr]
    · rw [if_neg hr]

theorem cacheInv_after_load (rows : List (String × String))
    (c : String → Option String) (hnd : (rows.map Prod.fst).Nodup)
    (hold : ∀ k, (c k).isSome = true → ∃ r ∈ rows, r.1 = k) :
    CacheInv ⟨rows, load_cache rows c⟩ := by
  refine ⟨hnd, ?_, ?_⟩
  · intro r hr
    show load_cache rows c r.1 = some r.2
    rw [load_cache_apply]
    cases r with
    | mk a b => rw [lastVal_nodup_mem rows a b hnd hr]; rfl
  · intro k hk
    rw [show (⟨rows, load_cache rows c⟩ : St).location_cache = load_cache rows c from rfl,
      load_cache_apply] at hk
    cases hl : lastVal rows k with
    | some v => exact ⟨(k, v), lastVal_mem rows k v hl, rfl⟩
    | none =>
      rw [hl, Option.none_or] at hk
      exact hold k hk

theorem set_location_cacheInv (s : St) (nick loc : String) (s' : St)
    (hinv : CacheInv s) (hset : set_location nick loc s = some s') : CacheInv s' := by
  obtain ⟨hnd, hmem, hkey⟩ := hinv
  simp only [set_location] at hset
  split at hset
  · cases hset
    apply cacheInv_after_load
    · rw [dbUpdate_keys]; exact hnd
    · intro k hk
      obtain ⟨r, hr, hrk⟩ := hkey k hk
      refine ⟨if r.1 = pyLower nick then (r.1, pyLower loc) else r, ?_, ?_⟩
      · exact List.mem_map_of_mem _ hr
      · by_cases h1 : r.1 = pyLower nick
        · rw [if_pos h1]; exact hrk
        · rw [if_neg h1]; exact hrk
  · rename_i hc
    cases hi : dbInsert s.table (pyLower nick) (pyLower loc) with
    | none => rw [hi] at hset; cases hset
    | some rows =>
      rw [hi] at hset
      cases hset
      have hfresh : ∀ r ∈ s.table, r.1 ≠ pyLower nick := by
        intro r hr hrn
        have h1 := hmem r hr
        have h2 : (s.location_cache (pyLower nick)).isSome = true := by
          rw [← hrn, h1]; rfl
        simp [h2] at hc
      have hrows : rows = s.table ++ [(pyLower nick, pyLower loc)] := by
        simp only [dbInsert] at hi
        split at hi
        · cases hi
        · cases hi; rfl
      subst hrows
      apply cacheInv_after_load
      · rw [List.map_append, List.nodup_append]
        refine ⟨hnd, List.nodup_singleton _, ?_⟩
        intro a ha hb
        simp only [List.map_cons, List.map_nil, List.mem_singleton] at hb
        obtain ⟨r, hr, hrk⟩ := List.mem_map.mp ha
        exact hfresh r hr (by rw [hrk, hb])
      · intro k hk
        obtain ⟨r, hr, hrk⟩ := hkey k hk
        exact ⟨r, List.mem_append_left _ hr, hrk⟩

theorem reach_cacheInv (s : St) (h : Reach s) : CacheInv s := by
  induction h with
  | init rows hnd =>
    exact cacheInv_after_load rows _ hnd (fun k hk => by simp at hk)
  | load s h ih => exact cacheInv_after_load s.table s.location_cache ih.1 ih.2.2
  | set s nick loc s' h hs ih => exact set_location_cacheInv s nick loc s' ih hs

/-- The initial empty process state (empty table, empty dict). -/
def stEmpty : St := ⟨[], fun _ => none⟩

/-- The state obtained from `stEmpty` by `set_location "Bob" "Paris"`. -/
def st1 : St := ⟨[("bob", "paris")], load_cache [("bob", "paris")] (fun _ => none)⟩

/-- A dict holding an entry `"ghost" ↦ "x"` that no table row backs. -/
def ghostCache : String → Option String :=
  fun k => if k = "ghost" then some "x" else none

/-- Claim C1: in any reachable process state, `set_location(user, location)`
followed by `get_location(u)` for any casing `u` of `user` returns the
lower-cased form of the location that was set (the `set` completing
successfully). -/
theorem weather_C1_set_then_get (nick location : String) (s : St) (h : Reach s) :
    ∃ s', set_location nick location s = some s' ∧
      ∀ u : String, pyLower u = pyLower nick →
        get_location s' u = some (pyLower location) := by
  obtain ⟨hnd, hmem, hkey⟩ := reach_cacheInv s h
  by_cases hc : (s.location_cache (pyLower nick)).isSome = true
  · obtain ⟨r, hr, hrk⟩ := hkey (pyLower nick) hc
    refine ⟨⟨dbUpdate s.table (pyLower nick) (pyLower location),
        load_cache (dbUpdate s.table (pyLower nick) (pyLower location)) s.location_cache⟩,
        ?_, ?_⟩
    · simp only [set_location, hc, if_true]
    · intro u hu
      show load_cache (dbUpdate s.table (pyLower nick) (pyLower location))
        s.location_cache (pyLower u) = _
      rw [hu, load_cache_apply, lastVal_dbUpdate]
      have hs1 : (lastVal s.table (pyLower nick)).isSome = true := by
        have h2 := lastVal_isSome_of_mem s.table r hr
        rwa [hrk] at h2
      cases hl : lastVal s.table (pyLower nick) with
      | none => rw [hl] at hs1; cases hs1
      | some v => rfl
  · have hnone : s.location_cache (pyLower nick) = none :=
      Option.not_isSome_iff_eq_none.mp hc
    have hfresh : ∀ r ∈ s.table, r.1 ≠ pyLower nick := by
      intro r hr hrn
      have h1 := hmem r hr
      rw [hrn, hnone] at h1
      cases h1
    have hins : dbInsert s.table (pyLower nick) (pyLower location) =
        some (s.table ++ [(pyLower nick, pyLower location)]) := by
      have hany : s.table.any (fun r => decide (r.1 = pyLower nick)) = false := by
        rw [List.any_eq_false]
        intro r hr
        simp [hfresh r hr]
      simp [dbInsert, hany]
    refine ⟨⟨s.table ++ [(pyLower nick, pyLower location)],
        load_cache (s.table ++ [(pyLower nick, pyLower location)]) s.location_cache⟩,
        ?_, ?_⟩
    · simp only [set_location, hnone, Option.isSome_none, Bool.false_eq_true, if_false, hins]
    · intro u hu
      show load_cache (s.table ++ [(pyLower nick, pyLower location)])
        s.location_cache (pyLower u) = _
      rw [hu, load_cache_apply, lastVal_append, lastVal_singleton]
      rfl

theorem weather_C1_witness :
    ∃ s', set_location "Bob" "Paris" stEmpty = some s' ∧
      ∀ u : String, pyLower u = pyLower "Bob" →
        get_location s' u = some (pyLower "Paris") :=
  weather_C1_set_then_get "Bob" "Paris" stEmpty (Reach.init [] (by simp))

/-- Claim C2 counterexample: `load_cache` on an empty table does not remove
the stale dict entry `"ghost" ↦ "x"` — the in-memory mapping after a load
is not equal to the set of table rows. -/
theorem weather_C2_counterexample :
    lastVal ([] : List (String × String)) "ghost" = none ∧
    load_cache [] ghostCache "ghost" = some "x" :=
  ⟨rfl, rfl⟩

/-- Claim C2 (amended): `load_cache` reads every row of the table and writes
it into the in-memory mapping (every table row is present afterwards with
its current value), but it merges rather than replaces: a key that occurs
in no table row keeps its previous value. -/
theorem weather_C2_amended (rows : List (String × String))
    (c : String → Option String) (hnd : (rows.map Prod.fst).Nodup) :
    (∀ r ∈ rows, load_cache rows c r.1 = some r.2) ∧
    (∀ k, lastVal rows k = none → load_cache rows c k = c k) := by
  constructor
  · intro r hr
    rw [load_cache_apply]
    cases r with
    | mk a b => rw [lastVal_nodup_mem rows a b hnd hr]; rfl
  · intro k hk
    rw [load_cache_apply, hk, Option.none_or]

theorem weather_C2_amended_witness :
    (∀ r ∈ [("bob", "paris")], load_cache [("bob", "paris")] ghostCache r.1 = some r.2) ∧
    (∀ k, lastVal [("bob", "paris")] k = none →
      load_cache [("bob", "paris")] ghostCache k = ghostCache k) :=
  weather_C2_amended [("bob", "paris")] ghostCache (by simp)

/-- Claim C3: in every reachable state, immediately after any completed
`set_location` the dict and the table are consistent — every table row is
in the dict with its current value — and the dict after the `set` is
exactly the full reload of the new table over the old dict (no `set`
completes without the reload). -/
theorem weather_C3_set_reload_consistent (s : St) (h : Reach s)
    (nick loc : String) (s' : St) (hset : set_location nick loc s = some s') :
    (∀ r ∈ s'.table, s'.location_cache r.1 = some r.2) ∧
    (∀ k, s'.location_cache k = load_cache s'.table s.location_cache k) := by
  have hinv : CacheInv s' := reach_cacheInv s' (Reach.set s nick loc s' h hset)
  refine ⟨hinv.2.1, ?_⟩
  simp only [set_location] at hset
  split at hset
  · cases hset
    intro k
    rfl
  · split at hset
    · cases hset
    · cases hset
      intro k
      rfl

theorem weather_C3_witness :
    (∀ r ∈ st1.table, st1.location_cache r.1 = some r.2) ∧
    (∀ k, st1.location_cache k = load_cache st1.table stEmpty.location_cache k) :=
  weather_C3_set_reload_consistent stEmpty (Reach.init [] (by simp)) "Bob" "Paris" st1 rfl

/-- Python `repr` of a string: pick the quote character (double quotes when
the string holds a single quote but no double quote, single quotes
otherwise) and escape backslashes and the chosen quote.  Control-character
escaping is not modelled; provider statuses are printable. -/
def pyQuote (s : String) : Char :=
  if '\x27' ∈ s.data ∧ ¬ '"' ∈ s.data then '"' else '\x27'

def pyEscape (q : Char) : List Char → List Char
  | [] => []
  | c :: cs => (if c = '\\' ∨ c = q then ['\\', c] else [c]) ++ pyEscape q cs

def pyRepr (s : String) : String :=
  ⟨pyQuote s :: (pyEscape (pyQuote s) s.data ++ [pyQuote s])⟩

/-- `GeocodeAPIError.__str__`: the English rendering of a geocode error
status. -/
def geocodeErrStr (status : String) : String :=
  if status = "REQUEST_DENIED" then
    "The geocode API is off in the Google Developers Console."
  else if status = "ZERO_RESULTS" then "No results found."
  else if status = "OVER_QUERY_LIMIT" then "The geocode API quota has run out."
  else if status = "UNKNOWN_ERROR" then "Unknown Error."
  else if status = "INVALID_REQUEST" then "Invalid Request."
  else pyRepr status

/-- `GeocodeAPIError.en_francais`: the French rendering of a geocode error
status. -/
def geocodeErrFr (status : String) : String :=
  if status = "REQUEST_DENIED" then
    "L\x27API de géocodage est désactivée dans la console des développeurs Google."
  else if status = "ZERO_RESULTS" then "Aucun resultat n\x27a été trouvé."
  else if status = "OVER_QUERY_LIMIT" then "Le quota de API de géocodage est épuisé."
  else if status = "UNKNOWN_ERROR" then "Quelque chose a mal tourné."
  else if status = "INVALID_REQUEST" then "Il y a eu une demande invalide."
  else "La France a été trahie! " ++ pyRepr status

/-- `APIKeyMissing.__str__`. -/
def apiKeyMissingStr (name : String) : String :=
  "This command requires a " ++ name ++ " API key."

/-- `APIKeyMissing.en_francais`. -/
def apiKeyMissingFr (name : String) : String :=
  "Cette commande nécessite une clé API " ++ name ++ "."

/-- Python exceptions escaping the plugin code. -/
inductive PyErr
  | apiKeyMissing (name : String)
  | geocodeAPIError (status : String)
  | httpError
  | indexError
  | integrityError
deriving DecidableEq, Repr

/-- The first geocode candidate's `geometry.location` (`lat`/`lng` carried
as the decimal strings the code formats them into). -/
structure Coords where
  lat : String
  lng : String
deriving DecidableEq, Repr

/-- The geocode provider's JSON body: its `status` field and the
`geometry.location` of each element of `results`. -/
structure GeoJson where
  status : String
  results : List Coords
deriving DecidableEq, Repr

structure ForecastTemp where
  fahrenheit : String
  celsius : String
deriving DecidableEq, Repr

/-- One element of `forecast.simpleforecast.forecastday`. -/
structure ForecastDay where
  conditions : String
  high : ForecastTemp
  low : ForecastTemp
deriving DecidableEq, Repr

/-- The `current_observation` block (fields the code reads). -/
structure Observation where
  display_location_full : String
  weather : String
  temp_f : String
  temp_c : String
  relative_humidity : String
  wind_kph : String
  wind_mph : String
  wind_dir : String
  ob_url : String
  forecast_url : String
deriving DecidableEq, Repr

/-- The weather provider's JSON body: `response.error.description` when an
error object is present, the `forecastday` list and `current_observation`. -/
structure WunderJson where
  response_error : Option String
  forecastday : List ForecastDay
  current_observation : Observation
deriving DecidableEq, Repr

/-- External world of one invocation: the two configured API keys and the
responses of the geocode call, the weather call and the URL shortener
(`none` = transport/HTTP failure, `requests.raise_for_status`). -/
structure WeatherEnv where
  wunder_key : Option String
  dev_key : Option String
  geoResp : Option GeoJson
  wunderResp : Option WunderJson
  shorten : String → String

/-- Observable calls made by one invocation, in order. -/
inductive Ev
  | cacheLookup (nick : String)
  | noticeDoc
  | geocode (location : String)
  | fetch (url : String)
  | cacheSet (nick location : String)
deriving DecidableEq, Repr

/-- The flat `weather_data` dict built by `get_weather_data`. -/
structure WeatherData where
  place : String
  conditions : String
  temp_f : String
  temp_c : String
  humidity : String
  wind_kph : String
  wind_mph : String
  wind_direction : String
  today_conditions : String
  today_high_f : String
  today_high_c : String
  today_low_f : String
  today_low_c : String
  tomorrow_conditions : String
  tomorrow_high_f : String
  tomorrow_high_c : String
  tomorrow_low_f : String
  tomorrow_low_c : String
  url : String
deriving DecidableEq, Repr

/-- Non-exceptional outcomes of `get_weather_data`: the dict, a plain
terminal string, or the implicit `None` of the no-location path. -/
inductive WRes
  | record (w : WeatherData)
  | msg (s : String)
  | noneRes
deriving DecidableEq, Repr

/-- Python substring test `nee in hay`. -/
def strContainsAux (nee : List Char) : List Char → Bool
  | [] => nee.isEmpty
  | c :: cs => nee.isPrefixOf (c :: cs) || strContainsAux nee cs

def strContains (hay nee : String) : Bool := strContainsAux nee.data hay.data

/-- `find_location(location)`: request the geocode API, raise on transport
failure, raise `GeocodeAPIError(status)` unless the status is `OK`, and
return the first candidate's `geometry.location` (`results[0]` raises an
IndexError when the list is empty). -/
def find_location (resp : Option GeoJson) : Except PyErr Coords :=
  match resp with
  | none => Except.error PyErr.httpError
  | some j =>
    if j.status ≠ "OK" then Except.error (PyErr.geocodeAPIError j.status)
    else
      match j.results with
      | [] => Except.error PyErr.indexError
      | c :: _ => Except.ok c

/-- The `wunder_api` URL template instantiated with key, language code and
`"{lat},{lng}"`. -/
def wunderUrl (key language formatted : String) : String :=
  "http://api.wunderground.com/api/" ++ key ++ "/forecast/lang:" ++ language ++
    "/geolookup/conditions/q/" ++ formatted ++ ".json"

/-- The `weather_data` dict of `get_weather_data`, lines 196-224: the
current-observation fields, the first two forecast days, and the display
URL — `ob_url` unless it contains `"?query=,"`, in which case
`forecast_url` — passed through `web.try_shorten`. -/
def buildWeatherData (ob : Observation) (ft fm : ForecastDay)
    (shorten : String → String) : WeatherData :=
  { place := ob.display_location_full
    conditions := ob.weather
    temp_f := ob.temp_f
    temp_c := ob.temp_c
    humidity := ob.relative_humidity
    wind_kph := ob.wind_kph
    wind_mph := ob.wind_mph
    wind_direction := ob.wind_dir
    today_conditions := ft.conditions
    today_high_f := ft.high.fahrenheit
    today_high_c := ft.high.celsius
    today_low_f := ft.low.fahrenheit
    today_low_c := ft.low.celsius
    tomorrow_conditions := fm.conditions
    tomorrow_high_f := fm.high.fahrenheit
    tomorrow_high_c := fm.high.celsius
    tomorrow_low_f := fm.low.fahrenheit
    tomorrow_low_c := fm.low.celsius
    url := shorten (if strContains ob.ob_url "?query=," then ob.forecast_url
      else ob.ob_url) }

/-- Location resolution of `get_weather_data`, lines 157-164: empty input
falls back to the saved location (`None` or an empty saved string notices
the user and yields no location). -/
def resolveLocation (text nick : String) (s : St) : List Ev × Option String :=
  if text.isEmpty then
    ([Ev.cacheLookup nick],
      match get_location s nick with
      | none => none
      | some loc => if loc.isEmpty then none else some loc)
  else ([], some text)

/-- `get_weather_data(text, db, nick, notice_doc, language)`: the full
pipeline.  Returns the event trace, the outcome (`Except` for exceptions)
and the final process state. -/
def get_weather_data (text nick : String) (env : WeatherEnv) (s : St)
    (language : String := "EN") : List Ev × Except PyErr WRes × St :=
  if pyFalsy env.wunder_key then
    ([], Except.error (PyErr.apiKeyMissing "Weather Underground"), s)
  else if pyFalsy env.dev_key then
    ([], Except.error (PyErr.apiKeyMissing "Google Developers Console"), s)
  else
    match resolveLocation text nick s with
    | (evs, none) => (evs ++ [Ev.noticeDoc], Except.ok WRes.noneRes, s)
    | (evs, some location) =>
      let evs := evs ++ [Ev.geocode location]
      match find_location env.geoResp with
      | Except.error e => (evs, Except.error e, s)
      | Except.ok c =>
        let formatted := c.lat ++ "," ++ c.lng
        let url := wunderUrl (env.wunder_key.getD "") language formatted
        let evs := evs ++ [Ev.fetch url]
        match env.wunderResp with
        | none => (evs, Except.error PyErr.httpError, s)
        | some wj =>
          match wj.response_error with
          | some desc => (evs, Except.ok (WRes.msg desc), s)
          | none =>
            match wj.forecastday with
            | [] => (evs, Except.ok (WRes.msg "Unable to retrieve forecast data."), s)
            | [_] => (evs, Except.error PyErr.indexError, s)
            | ft :: fm :: _ =>
              let wd := buildWeatherData wj.current_observation ft fm env.shorten
              if text.isEmpty then (evs, Except.ok (WRes.record wd), s)
              else
                match set_location nick location s with
                | none => (evs, Except.error PyErr.integrityError, s)
                | some s2 =>
                  (evs ++ [Ev.cacheSet nick location], Except.ok (WRes.record wd), s2)

/-- What a command invocation produces: a `reply(...)` line, a returned
string, or a returned `None`. -/
inductive CmdOut
  | replied (line : String)
  | returned (s : String)
  | returnedNone
deriving DecidableEq, Repr

/-- The English reply template of the `weather` command. -/
def formatEN (w : WeatherData) : String :=
  w.place ++ " - \x02Current:\x02 " ++ w.conditions ++ ", " ++
  w.temp_f ++ "F/" ++ w.temp_c ++ "C, " ++ w.humidity ++ ", " ++
  "Wind: " ++ w.wind_mph ++ "MPH/" ++ w.wind_kph ++ "KPH " ++ w.wind_direction ++ ", " ++
  "\x02Today:\x02 " ++ w.today_conditions ++ ", " ++
  "High: " ++ w.today_high_f ++ "F/" ++ w.today_high_c ++ "C, " ++
  "Low: " ++ w.today_low_f ++ "F/" ++ w.today_low_c ++ "C. " ++
  "\x02Tomorrow:\x02 " ++ w.tomorrow_conditions ++ ", " ++
  "High: " ++ w.tomorrow_high_f ++ "F/" ++ w.tomorrow_high_c ++ "C, " ++
  "Low: " ++ w.tomorrow_low_f ++ "F/" ++ w.tomorrow_low_c ++ "C - " ++ w.url

/-- The French reply template of the `meteo` command. -/
def formatFR (w : WeatherData) : String :=
  w.place ++ " - \x02Actuelle:\x02 " ++ w.conditions ++ ", " ++
  w.temp_f ++ "F/" ++ w.temp_c ++ "C, " ++ w.humidity ++ ", " ++
  "Vent: " ++ w.wind_mph ++ "MPH/" ++ w.wind_kph ++ "KPH " ++ w.wind_direction ++ ", " ++
  "\x02Aujourd\x27hui:\x02 " ++ w.today_conditions ++ ", " ++
  "Haute: " ++ w.today_high_f ++ "F/" ++ w.today_high_c ++ "C, " ++
  "Basse: " ++ w.today_low_f ++ "F/" ++ w.today_low_c ++ "C. " ++
  "\x02Demain:\x02 " ++ w.tomorrow_conditions ++ ", " ++
  "Haute: " ++ w.tomorrow_high_f ++ "F/" ++ w.tomorrow_high_c ++ "C, " ++
  "Basse: " ++ w.tomorrow_low_f ++ "F/" ++ w.tomorrow_low_c ++ "C - " ++ w.url

/-- The `weather` command: runs the pipeline in English, converts
`APIKeyMissing`/`GeocodeAPIError` to their English string, returns non-dict
results unchanged, and replies with the formatted line for a dict. -/
def weather (text nick : String) (env : WeatherEnv) (s : St) :
    List Ev × Except PyErr CmdOut × St :=
  match get_weather_data text nick env s with
  | (evs, Except.error (PyErr.apiKeyMissing n), s2) =>
    (evs, Except.ok (CmdOut.returned (apiKeyMissingStr n)), s2)
  | (evs, Except.error (PyErr.geocodeAPIError st), s2) =>
    (evs, Except.ok (CmdOut.returned (geocodeErrStr st)), s2)
  | (evs, Except.error e, s2) => (evs, Except.error e, s2)
  | (evs, Except.ok (WRes.record w), s2) =>
    (evs, Except.ok (CmdOut.replied (formatEN w)), s2)
  | (evs, Except.ok (WRes.msg m), s2) => (evs, Except.ok (CmdOut.returned m), s2)
  | (evs, Except.ok WRes.noneRes, s2) => (evs, Except.ok CmdOut.returnedNone, s2)

/-- The `meteo` command: runs the pipeline with `language='FR'`, converts
errors via `en_francais`, swaps the English forecast-unavailable terminal
string for its French equivalent by exact string equality, and replies with
the French line for a dict. -/
def meteo (text nick : String) (env : WeatherEnv) (s : St) :
    List Ev × Except PyErr CmdOut × St :=
  match get_weather_data text nick env s "FR" with
  | (evs, Except.error (PyErr.apiKeyMissing n), s2) =>
    (evs, Except.ok (CmdOut.returned (apiKeyMissingFr n)), s2)
  | (evs, Except.error (PyErr.geocodeAPIError st), s2) =>
    (evs, Except.ok (CmdOut.returned (geocodeErrFr st)), s2)
  | (evs, Except.error e, s2) => (evs, Except.error e, s2)
  | (evs, Except.ok (WRes.record w), s2) =>
    (evs, Except.ok (CmdOut.replied (formatFR w)), s2)
  | (evs, Except.ok (WRes.msg m), s2) =>
    (evs, Except.ok (CmdOut.returned
      (if m = "Unable to retrieve forecast data."
        then "Impossible de récupérer les données météorologiques." else m)), s2)
  | (evs, Except.ok WRes.noneRes, s2) => (evs, Except.ok CmdOut.returnedNone, s2)

/-- Concrete observation block used by witnesses; its `ob_url` carries the
placeholder marker `"?query=,"`. -/
def ob1 : Observation :=
  { display_location_full := "Paris, France"
    weather := "Clear"
    temp_f := "68"
    temp_c := "20"
    relative_humidity := "50%"
    wind_kph := "10"
    wind_mph := "6"
    wind_dir := "NW"
    ob_url := "http://w.example/obs?query=,"
    forecast_url := "http://w.example/fc" }

def fd1 : ForecastDay :=
  { conditions := "Sunny", high := ⟨"70", "21"⟩, low := ⟨"50", "10"⟩ }

def fd2 : ForecastDay :=
  { conditions := "Rain", high := ⟨"65", "18"⟩, low := ⟨"48", "9"⟩ }

def gjOK : GeoJson := ⟨"OK", [⟨"48.8566", "2.3522"⟩]⟩

def wjOK : WunderJson :=
  { response_error := none, forecastday := [fd1, fd2], current_observation := ob1 }

def wjEmptyFc : WunderJson :=
  { response_error := none, forecastday := [], current_observation := ob1 }

def wjOneFc : WunderJson :=
  { response_error := none, forecastday := [fd1], current_observation := ob1 }

def envOK : WeatherEnv :=
  ⟨some "WKEY", some "GKEY", some gjOK, some wjOK, fun u => "short:" ++ u⟩

def envNoGeo : WeatherEnv :=
  ⟨some "WKEY", some "GKEY", none, some wjOK, fun u => "short:" ++ u⟩

def envEmptyFc : WeatherEnv :=
  ⟨some "WKEY", some "GKEY", some gjOK, some wjEmptyFc, fun u => "short:" ++ u⟩

def envOneFc : WeatherEnv :=
  ⟨some "WKEY", some "GKEY", some gjOK, some wjOneFc, fun u => "short:" ++ u⟩

def envNoKeys : WeatherEnv := ⟨none, none, none, none, fun u => u⟩

/-- Claim C8: with empty location text and no cached location, the pipeline
performs only the cache lookup, invokes `notice_doc` exactly once, returns
`None` (no weather record, not an error) and leaves the state unchanged —
no geocode, fetch or cache write happens. -/
theorem weather_C8_no_location (text nick : String) (env : WeatherEnv) (s : St)
    (hw : pyFalsy env.wunder_key = false) (hd : pyFalsy env.dev_key = false)
    (ht : text.isEmpty = true) (hc : s.location_cache (pyLower nick) = none) :
    get_weather_data text nick env s =
      ([Ev.cacheLookup nick, Ev.noticeDoc], Except.ok WRes.noneRes, s) := by
  simp [get_weather_data, resolveLocation, get_location, ht, hc, hw, hd]

theorem weather_C8_witness :
    get_weather_data "" "Bob" envOK stEmpty =
      ([Ev.cacheLookup "Bob", Ev.noticeDoc], Except.ok WRes.noneRes, stEmpty) :=
  weather_C8_no_location "" "Bob" envOK stEmpty rfl rfl rfl rfl

/-- Claim C5: when either API key is unconfigured, the pipeline fails with
`APIKeyMissing` naming a provider whose key is absent before any cache
lookup, geocode or fetch (empty trace, unchanged state), and each command
returns the message in its own language. -/
theorem weather_C5_missing_key (text nick : String) (env : WeatherEnv) (s : St)
    (h : pyFalsy env.wunder_key = true ∨ pyFalsy env.dev_key = true) :
    ∃ name,
      ((name = "Weather Underground" ∧ pyFalsy env.wunder_key = true) ∨
        (name = "Google Developers Console" ∧ pyFalsy env.dev_key = true)) ∧
      get_weather_data text nick env s =
        ([], Except.error (PyErr.apiKeyMissing name), s) ∧
      weather text nick env s =
        ([], Except.ok (CmdOut.returned (apiKeyMissingStr name)), s) ∧
      meteo text nick env s =
        ([], Except.ok (CmdOut.returned (apiKeyMissingFr name)), s) := by
  by_cases hw : pyFalsy env.wunder_key = true
  · refine ⟨"Weather Underground", Or.inl ⟨rfl, hw⟩, ?_, ?_, ?_⟩
    · simp [get_weather_data, hw]
    · simp [weather, get_weather_data, hw]
    · simp [meteo, get_weather_data, hw]
  · have hd : pyFalsy env.dev_key = true := by
      rcases h with h | h
      · exact absurd h hw
      · exact h
    have hw2 : pyFalsy env.wunder_key = false := by
      cases hx : pyFalsy env.wunder_key
      · rfl
      · exact absurd hx hw
    refine ⟨"Google Developers Console", Or.inr ⟨rfl, hd⟩, ?_, ?_, ?_⟩
    · simp [get_weather_data, hw2, hd]
    · simp [weather, get_weather_data, hw2, hd]
    · simp [meteo, get_weather_data, hw2, hd]

theorem weather_C5_witness :
    ∃ name,
      ((name = "Weather Underground" ∧ pyFalsy envNoKeys.wunder_key = true) ∨
        (name = "Google Developers Console" ∧ pyFalsy envNoKeys.dev_key = true)) ∧
      get_weather_data "Paris" "Bob" envNoKeys stEmpty =
        ([], Except.error (PyErr.apiKeyMissing name), stEmpty) ∧
      weather "Paris" "Bob" envNoKeys stEmpty =
        ([], Except.ok (CmdOut.returned (apiKeyMissingStr name)), stEmpty) ∧
      meteo "Paris" "Bob" envNoKeys stEmpty =
        ([], Except.ok (CmdOut.returned (apiKeyMissingFr name)), stEmpty) :=
  weather_C5_missing_key "Paris" "Bob" envNoKeys stEmpty (Or.inl rfl)

/-- Claim C7: a weather response with an empty forecast list makes the
fetch return the fixed terminal string (not an exception); the English
command returns exactly that string and the French command returns the
French equivalent, which it substitutes on exact string equality with the
English terminal string. -/
theorem weather_C7_empty_forecast (text nick : String) (env : WeatherEnv) (s : St)
    (gj : GeoJson) (c : Coords) (cs : List Coords) (wj : WunderJson)
    (hw : pyFalsy env.wunder_key = false) (hd : pyFalsy env.dev_key = false)
    (ht : text.isEmpty = false)
    (hg : env.geoResp = some gj) (hst : gj.status = "OK") (hres : gj.results = c :: cs)
    (hwj : env.wunderResp = some wj) (herr : wj.response_error = none)
    (hfc : wj.forecastday = []) :
    (get_weather_data text nick env s).2.1 =
      Except.ok (WRes.msg "Unable to retrieve forecast data.") ∧
    (weather text nick env s).2.1 =
      Except.ok (CmdOut.returned "Unable to retrieve forecast data.") ∧
    (meteo text nick env s).2.1 =
      Except.ok (CmdOut.returned "Impossible de récupérer les données météorologiques.") := by
  refine ⟨?_, ?_, ?_⟩
  · simp [get_weather_data, resolveLocation, find_location, ht, hg, hst, hres, hwj,
      herr, hfc, hw, hd]
  · simp [weather, get_weather_data, resolveLocation, find_location, ht, hg, hst, hres,
      hwj, herr, hfc, hw, hd]
  · simp [meteo, get_weather_data, resolveLocation, find_location, ht, hg, hst, hres,
      hwj, herr, hfc, hw, hd]

theorem weather_C7_witness :
    (get_weather_data "Paris" "Bob" envEmptyFc stEmpty).2.1 =
      Except.ok (WRes.msg "Unable to retrieve forecast data.") ∧
    (weather "Paris" "Bob" envEmptyFc stEmpty).2.1 =
      Except.ok (CmdOut.returned "Unable to retrieve forecast data.") ∧
    (meteo "Paris" "Bob" envEmptyFc stEmpty).2.1 =
      Except.ok (CmdOut.returned "Impossible de récupérer les données météorologiques.") :=
  weather_C7_empty_forecast "Paris" "Bob" envEmptyFc stEmpty gjOK ⟨"48.8566", "2.3522"⟩
    [] wjEmptyFc rfl rfl rfl rfl rfl rfl rfl rfl rfl

/-- Claim C9: on a successful run, the record's URL is the result of the
external shortener applied to `forecast_url` when `ob_url` contains the
literal substring `"?query=,"`, and to `ob_url` unchanged otherwise. -/
theorem weather_C9_url_selection (text nick loc : String) (env : WeatherEnv) (s : St)
    (gj : GeoJson) (c : Coords) (cs : List Coords) (wj : WunderJson)
    (ft fm : ForecastDay) (rest : List ForecastDay)
    (hw : pyFalsy env.wunder_key = false) (hd : pyFalsy env.dev_key = false)
    (ht : text.isEmpty = true) (hc0 : s.location_cache (pyLower nick) = some loc)
    (hl : loc.isEmpty = false)
    (hg : env.geoResp = some gj) (hst : gj.status = "OK") (hres : gj.results = c :: cs)
    (hwj : env.wunderResp = some wj) (herr : wj.response_error = none)
    (hfc : wj.forecastday = ft :: fm :: rest) :
    ∃ evs w, get_weather_data text nick env s = (evs, Except.ok (WRes.record w), s) ∧
      w.url = env.shorten
        (if strContains wj.current_observation.ob_url "?query=," = true
          then wj.current_observation.forecast_url
          else wj.current_observation.ob_url) := by
  refine ⟨[Ev.cacheLookup nick, Ev.geocode loc,
      Ev.fetch (wunderUrl (env.wunder_key.getD "") "EN" (c.lat ++ "," ++ c.lng))],
    buildWeatherData wj.current_observation ft fm env.shorten, ?_, ?_⟩
  · simp [get_weather_data, resolveLocation, get_location, find_location, ht, hc0, hl,
      hw, hd, hg, hst, hres, hwj, herr, hfc]
  · simp [buildWeatherData]

theorem weather_C9_witness :
    ∃ evs w, get_weather_data "" "Bob" envOK st1 = (evs, Except.ok (WRes.record w), st1) ∧
      w.url = envOK.shorten
        (if strContains wjOK.current_observation.ob_url "?query=," = true
          then wjOK.current_observation.forecast_url
          else wjOK.current_observation.ob_url) :=
  weather_C9_url_selection "" "Bob" "paris" envOK st1 gjOK ⟨"48.8566", "2.3522"⟩ []
    wjOK fd1 fd2 [] rfl rfl rfl rfl rfl rfl rfl rfl rfl rfl rfl

/-- Claim C10: the emptiness guard is the only length check on the forecast
list — a response with exactly one forecast day makes the extraction fail
with an unhandled IndexError (not a terminal message), and the fetch
succeeds exactly when the forecast list is empty or has at least two
entries. -/
theorem weather_C10_singleton_forecast (text nick loc : String) (env : WeatherEnv)
    (s : St) (gj : GeoJson) (c : Coords) (cs : List Coords) (wj : WunderJson)
    (hw : pyFalsy env.wunder_key = false) (hd : pyFalsy env.dev_key = false)
    (ht : text.isEmpty = true) (hc0 : s.location_cache (pyLower nick) = some loc)
    (hl : loc.isEmpty = false)
    (hg : env.geoResp = some gj) (hst : gj.status = "OK") (hres : gj.results = c :: cs)
    (hwj : env.wunderResp = some wj) (herr : wj.response_error = none) :
    (wj.forecastday.length = 1 →
      (get_weather_data text nick env s).2.1 = Except.error PyErr.indexError) ∧
    ((∃ r, (get_weather_data text nick env s).2.1 = Except.ok r) ↔
      (wj.forecastday = [] ∨ 2 ≤ wj.forecastday.length)) := by
  cases hfc : wj.forecastday with
  | nil =>
    constructor
    · intro h1
      simp at h1
    · constructor
      · intro _
        left
        rfl
      · intro _
        refine ⟨WRes.msg "Unable to retrieve forecast data.", ?_⟩
        simp [get_weather_data, resolveLocation, get_location, find_location, ht, hc0,
          hl, hw, hd, hg, hst, hres, hwj, herr, hfc]
  | cons d0 ds =>
    cases ds with
    | nil =>
      constructor
      · intro _
        simp [get_weather_data, resolveLocation, get_location, find_location, ht, hc0,
          hl, hw, hd, hg, hst, hres, hwj, herr, hfc]
      · constructor
        · rintro ⟨r, hr⟩
          simp [get_weather_data, resolveLocation, get_location, find_location, ht, hc0,
            hl, hw, hd, hg, hst, hres, hwj, herr, hfc] at hr
        · rintro (h1 | h1) <;> simp at h1
    | cons d1 ds2 =>
      constructor
      · intro h1
        simp at h1
      · constructor
        · intro _
          right
          simp
        · intro _
          refine ⟨WRes.record (buildWeatherData wj.current_observation d0 d1 env.shorten), ?_⟩
          simp [get_weather_data, resolveLocation, get_location, find_location, ht, hc0,
            hl, hw, hd, hg, hst, hres, hwj, herr, hfc]

theorem weather_C10_witness :
    (wjOneFc.forecastday.length = 1 →
      (get_weather_data "" "Bob" envOneFc st1).2.1 = Except.error PyErr.indexError) ∧
    ((∃ r, (get_weather_data "" "Bob" envOneFc st1).2.1 = Except.ok r) ↔
      (wjOneFc.forecastday = [] ∨ 2 ≤ wjOneFc.forecastday.length)) :=
  weather_C10_singleton_forecast "" "Bob" "paris" envOneFc st1 gjOK ⟨"48.8566", "2.3522"⟩
    [] wjOneFc rfl rfl rfl rfl rfl rfl rfl rfl rfl rfl

/-- Claim C4: with non-empty explicit location text, the trace of a run is
a prefix of geocode → fetch → cache-set (so geocode precedes any fetch and
any cache write follows the fetch); the cache write happens exactly on runs
returning a weather record; and any run not returning a record leaves the
process state (dict and table) unchanged. -/
theorem weather_C4_order (text nick : String) (env : WeatherEnv) (s : St)
    (ht : text.isEmpty = false) :
    ((get_weather_data text nick env s).1 = [] ∨
      (get_weather_data text nick env s).1 = [Ev.geocode text] ∨
      (∃ u, (get_weather_data text nick env s).1 = [Ev.geocode text, Ev.fetch u]) ∨
      (∃ u, (get_weather_data text nick env s).1 =
        [Ev.geocode text, Ev.fetch u, Ev.cacheSet nick text])) ∧
    ((Ev.cacheSet nick text ∈ (get_weather_data text nick env s).1) ↔
      ∃ w, (get_weather_data text nick env s).2.1 = Except.ok (WRes.record w)) ∧
    ((∀ w, (get_weather_data text nick env s).2.1 ≠ Except.ok (WRes.record w)) →
      (get_weather_data text nick env s).2.2 = s) := by
  cases hw : pyFalsy env.wunder_key with
  | true =>
    refine ⟨Or.inl ?_, ?_, ?_⟩ <;> simp [get_weather_data, hw]
  | false =>
    cases hd : pyFalsy env.dev_key with
    | true =>
      refine ⟨Or.inl ?_, ?_, ?_⟩ <;> simp [get_weather_data, hw, hd]
    | false =>
      cases hfl : find_location env.geoResp with
      | error e =>
        refine ⟨Or.inr (Or.inl ?_), ?_, ?_⟩ <;>
          simp [get_weather_data, resolveLocation, ht, hw, hd, hfl]
      | ok c =>
        cases hwr : env.wunderResp with
        | none =>
          refine ⟨Or.inr (Or.inr (Or.inl ⟨wunderUrl (env.wunder_key.getD "") "EN" (c.lat ++ "," ++ c.lng), ?_⟩)), ?_, ?_⟩ <;>
            simp [get_weather_data, resolveLocation, ht, hw, hd, hfl, hwr]
        | some wj =>
          cases herr : wj.response_error with
          | some desc =>
            refine ⟨Or.inr (Or.inr (Or.inl ⟨wunderUrl (env.wunder_key.getD "") "EN" (c.lat ++ "," ++ c.lng), ?_⟩)), ?_, ?_⟩ <;>
              simp [get_weather_data, resolveLocation, ht, hw, hd, hfl, hwr, herr]
          | none =>
            cases hfc : wj.forecastday with
            | nil =>
              refine ⟨Or.inr (Or.inr (Or.inl ⟨wunderUrl (env.wunder_key.getD "") "EN" (c.lat ++ "," ++ c.lng), ?_⟩)), ?_, ?_⟩ <;>
                simp [get_weather_data, resolveLocation, ht, hw, hd, hfl, hwr, herr, hfc]
            | cons d0 ds =>
              cases ds with
              | nil =>
                refine ⟨Or.inr (Or.inr (Or.inl ⟨wunderUrl (env.wunder_key.getD "") "EN" (c.lat ++ "," ++ c.lng), ?_⟩)), ?_, ?_⟩ <;>
                  simp [get_weather_data, resolveLocation, ht, hw, hd, hfl, hwr, herr, hfc]
              | cons d1 ds2 =>
                cases hsl : set_location nick text s with
                | none =>
                  refine ⟨Or.inr (Or.inr (Or.inl ⟨wunderUrl (env.wunder_key.getD "") "EN" (c.lat ++ "," ++ c.lng), ?_⟩)), ?_, ?_⟩ <;>
                    simp [get_weather_data, resolveLocation, ht, hw, hd, hfl, hwr, herr,
                      hfc, hsl]
                | some s3 =>
                  refine ⟨Or.inr (Or.inr (Or.inr ⟨wunderUrl (env.wunder_key.getD "") "EN" (c.lat ++ "," ++ c.lng), ?_⟩)), ?_, ?_⟩
                  · simp [get_weather_data, resolveLocation, ht, hw, hd, hfl, hwr, herr,
                      hfc, hsl]
                  · simp [get_weather_data, resolveLocation, ht, hw, hd, hfl, hwr, herr,
                      hfc, hsl]
                  · intro h
                    exfalso
                    apply h (buildWeatherData wj.current_observation d0 d1 env.shorten)
                    simp [get_weather_data, resolveLocation, ht, hw, hd, hfl, hwr,
                      herr, hfc, hsl]

theorem weather_C4_witness :
    ((get_weather_data "Paris" "Bob" envNoGeo stEmpty).1 = [] ∨
      (get_weather_data "Paris" "Bob" envNoGeo stEmpty).1 = [Ev.geocode "Paris"] ∨
      (∃ u, (get_weather_data "Paris" "Bob" envNoGeo stEmpty).1 =
        [Ev.geocode "Paris", Ev.fetch u]) ∨
      (∃ u, (get_weather_data "Paris" "Bob" envNoGeo stEmpty).1 =
        [Ev.geocode "Paris", Ev.fetch u, Ev.cacheSet "Bob" "Paris"])) ∧
    ((Ev.cacheSet "Bob" "Paris" ∈ (get_weather_data "Paris" "Bob" envNoGeo stEmpty).1) ↔
      ∃ w, (get_weather_data "Paris" "Bob" envNoGeo stEmpty).2.1 =
        Except.ok (WRes.record w)) ∧
    ((∀ w, (get_weather_data "Paris" "Bob" envNoGeo stEmpty).2.1 ≠
        Except.ok (WRes.record w)) →
      (get_weather_data "Paris" "Bob" envNoGeo stEmpty).2.2 = stEmpty) :=
  weather_C4_order "Paris" "Bob" envNoGeo stEmpty rfl

theorem pyEscape_id (q : Char) (l : List Char)
    (h : ∀ c ∈ l, ¬(c = '\\' ∨ c = q)) : pyEscape q l = l := by
  induction l with
  | nil => rfl
  | cons c cs ih =>
    simp only [pyEscape]
    rw [if_neg (h c (by simp)), ih (fun x hx => h x (by simp [hx]))]
    rfl

theorem pyRepr_plain (s : String)
    (h : ∀ c ∈ s.data, ¬(c = '\\' ∨ c = '\x27' ∨ c = '"')) :
    (pyRepr s).data = '\x27' :: (s.data ++ ['\x27']) := by
  have hq : pyQuote s = '\x27' := by
    unfold pyQuote
    rw [if_neg]
    rintro ⟨h1, _⟩
    exact (h _ h1) (Or.inr (Or.inl rfl))
  show pyQuote s :: (pyEscape (pyQuote s) s.data ++ [pyQuote s]) = _
  rw [hq, pyEscape_id]
  intro c hc
  rintro (h1 | h1)
  · exact (h c hc) (Or.inl h1)
  · exact (h c hc) (Or.inr (Or.inl h1))

/-- Claim C6: the five named geocode statuses render to their fixed English
and French strings, and any other (printable, escape-free) status value is
embedded verbatim in both renderings. -/
theorem weather_C6_geocode_renderings :
    (geocodeErrStr "REQUEST_DENIED" =
        "The geocode API is off in the Google Developers Console." ∧
      geocodeErrStr "ZERO_RESULTS" = "No results found." ∧
      geocodeErrStr "OVER_QUERY_LIMIT" = "The geocode API quota has run out." ∧
      geocodeErrStr "UNKNOWN_ERROR" = "Unknown Error." ∧
      geocodeErrStr "INVALID_REQUEST" = "Invalid Request." ∧
      geocodeErrFr "REQUEST_DENIED" =
        "L\x27API de géocodage est désactivée dans la console des développeurs Google." ∧
      geocodeErrFr "ZERO_RESULTS" = "Aucun resultat n\x27a été trouvé." ∧
      geocodeErrFr "OVER_QUERY_LIMIT" = "Le quota de API de géocodage est épuisé." ∧
      geocodeErrFr "UNKNOWN_ERROR" = "Quelque chose a mal tourné." ∧
      geocodeErrFr "INVALID_REQUEST" = "Il y a eu une demande invalide.") ∧
    (∀ status : String,
      status ≠ "REQUEST_DENIED" → status ≠ "ZERO_RESULTS" →
      status ≠ "OVER_QUERY_LIMIT" → status ≠ "UNKNOWN_ERROR" →
      status ≠ "INVALID_REQUEST" →
      (∀ c ∈ status.data, ¬(c = '\\' ∨ c = '\x27' ∨ c = '"')) →
      (∃ a b, (geocodeErrStr status).data = a ++ status.data ++ b) ∧
      (∃ a b, (geocodeErrFr status).data = a ++ status.data ++ b)) := by
  constructor
  · refine ⟨?_, ?_, ?_, ?_, ?_, ?_, ?_, ?_, ?_, ?_⟩ <;> decide
  · intro status h1 h2 h3 h4 h5 hsafe
    have hstr : geocodeErrStr status = pyRepr status := by
      simp [geocodeErrStr, h1, h2, h3, h4, h5]
    have hfr : geocodeErrFr status = "La France a été trahie! " ++ pyRepr status := by
      simp [geocodeErrFr, h1, h2, h3, h4, h5]
    constructor
    · exact ⟨['\x27'], ['\x27'], by
        rw [hstr, pyRepr_plain status hsafe]
        simp⟩
    · exact ⟨("La France a été trahie! ").data ++ ['\x27'], ['\x27'], by
        rw [hfr, String.data_append, pyRepr_plain status hsafe]
        simp⟩

theorem weather_C6_witness :
    (∃ a b, (geocodeErrStr "WEIRD_STATUS").data = a ++ ("WEIRD_STATUS").data ++ b) ∧
    (∃ a b, (geocodeErrFr "WEIRD_STATUS").data = a ++ ("WEIRD_STATUS").data ++ b) :=
  weather_C6_geocode_renderings.2 "WEIRD_STATUS" (by decide) (by decide) (by decide)
    (by decide) (by decide) (by decide)
